import Mathlib

/-!
Verification development for the StreamBox video marketplace server.

The definitions below are a shallow embedding of the purchase-verification,
payment-gated streaming, upload-registration and subscription logic of the
repository (src/server/routes.ts, src/server/storage.ts,
src/server/synapseService.ts, src/server/filecoinPay.ts).  Decimal price
strings of the source are denoted by rational numbers; the in-memory Map
collections of MemStorage are denoted by lists in insertion order; the
external ledger, content store and smart contract are modelled as explicit
environment parameters.
-/

namespace StreamBox

/-- A stored purchase record (storage.ts, MemStorage.createPurchase).
The source fills optional fields with null; `createdAt` is omitted because no
embedded operation reads it. -/
structure Purchase where
  id : String
  userId : Option String
  videoId : Option String
  amount : Rat
  transactionHash : Option String
deriving DecidableEq, Repr

/-- A video (asset) record, restricted to the fields the embedded routes read
(storage.ts seed data and createVideo). -/
structure Video where
  id : String
  videoUrl : String
  price : Option Rat
  pricingType : String
  views : Nat
  creatorId : Option String
deriving DecidableEq, Repr

/-- A subscription record (storage.ts, MemStorage.createSubscription). -/
structure Subscription where
  id : String
  userId : Option String
  creatorId : Option String
  isActive : Bool
  createdAt : Nat
deriving DecidableEq, Repr

/-- The in-memory persistence gateway (storage.ts, class MemStorage).  The
JavaScript Maps keyed by generated unique ids are modelled as lists in
insertion order; `nextId` generates the fresh ids that randomUUID produces in
the source. -/
structure MemStorage where
  videos : List Video
  subscriptions : List Subscription
  purchases : List Purchase
  nextId : Nat
deriving DecidableEq, Repr

/-- Fresh id supplied to a newly created record (randomUUID in the source). -/
def freshId (n : Nat) : String := "uuid-" ++ toString n

/-- storage.ts, MemStorage.getVideo: `this.videos.get(id)`. -/
def getVideo (s : MemStorage) (id : String) : Option Video :=
  s.videos.find? fun v => v.id == id

/-- The numeric value of `parseFloat(video.price || '0')` used by the routes:
a null price reads as zero. -/
def priceVal (v : Video) : Rat := v.price.getD 0

/-- storage.ts, MemStorage.getPurchase: first stored purchase matching the
(userId, videoId) pair. -/
def getPurchase (s : MemStorage) (userId videoId : String) : Option Purchase :=
  s.purchases.find? fun p => p.userId == some userId && p.videoId == some videoId

/-- Input shape of a purchase insertion (insertPurchaseSchema fields consumed
by MemStorage.createPurchase). -/
structure InsertPurchase where
  userId : Option String
  videoId : Option String
  amount : Rat
  transactionHash : Option String
deriving DecidableEq, Repr

/-- storage.ts, MemStorage.createPurchase: always builds a record under a
fresh random id and stores it; there is no lookup for an existing
(userId, videoId) purchase. -/
def createPurchase (s : MemStorage) (ip : InsertPurchase) : Purchase × MemStorage :=
  let p : Purchase :=
    { id := freshId s.nextId
      userId := ip.userId
      videoId := ip.videoId
      amount := ip.amount
      transactionHash := ip.transactionHash }
  (p, { s with purchases := s.purchases ++ [p], nextId := s.nextId + 1 })

/-- storage.ts, MemStorage.getSubscription: first subscription matching the
pair that is still active. -/
def getSubscription (s : MemStorage) (userId creatorId : String) : Option Subscription :=
  s.subscriptions.find? fun sub =>
    sub.userId == some userId && sub.creatorId == some creatorId && sub.isActive

/-- storage.ts, MemStorage.cancelSubscription: looks the active subscription
up, clears its isActive flag and writes it back under the same id; nothing is
deleted. -/
def cancelSubscription (s : MemStorage) (userId creatorId : String) : MemStorage :=
  match getSubscription s userId creatorId with
  | none => s
  | some sub =>
      { s with subscriptions := s.subscriptions.map fun x =>
          if x.id == sub.id then { sub with isActive := false } else x }

/-- storage.ts, MemStorage.updateVideo, specialised to the
`{ videoUrl: ... }` partial update that the embedded routes perform: merge
the update into the stored record when the video exists, otherwise return
undefined and leave the store untouched. -/
def updateVideoUrl (s : MemStorage) (id newUrl : String) : Option MemStorage :=
  match getVideo s id with
  | none => none
  | some _ =>
      some { s with videos := s.videos.map fun v =>
        if v.id == id then { v with videoUrl := newUrl } else v }

/-- A token transfer recorded on the external ledger: destination address,
transferred amount and finality.  The server can look transfers up by
transaction reference through the environment. -/
structure LedgerTransfer where
  toAddr : String
  amount : Rat
  confirmed : Bool
deriving DecidableEq, Repr

/-- The external world the server routes consult: Synapse SDK connectivity
(synapseService.isConnected), the USDFC balance oracle
(paymentsService.getBalanceOf, which returns an integer amount of token base
units, a bigint in the SDK, so BigInt(userBalance) is the identity on it),
the smart-contract purchase check consumed by
filecoinPayService.hasPurchasedVideo, the configured creator payout address
(filecoinPayService.getCreatorAddress), the content store
(synapseService.retrieveFile) and the ledger transaction lookup.  The routes
in the source never call `lookupTransaction`; it is carried so that
properties about the referenced transfer can be stated. -/
structure Env where
  synapseConnected : Bool
  balanceOf : String → Int
  contractHasPurchased : String → String → Bool
  creatorAddress : Option String
  retrieve : String → Option (List Nat)
  lookupTransaction : String → Option LedgerTransfer

/-- Outcome of synapseService.verifyContentPayment (success flag and verified
flag; the error string is dropped). -/
structure SynapsePaymentResult where
  success : Bool
  verified : Bool
deriving DecidableEq, Repr

/-- JavaScript BigInt() applied to the decimal price string denoted by q: it
yields the integer value exactly when the string is an integer numeral,
i.e. when the denoted rational has denominator one, and throws a
SyntaxError on a fractional decimal such as "5.99" (denominator 100). -/
def bigIntOfPrice (q : Rat) : Option Int :=
  if q.den = 1 then some q.num else none

/-- synapseService.ts, SynapseService.verifyContentPayment: fetches the
buyer's USDFC balance and computes
`BigInt(userBalance) >= BigInt(amount)` inside a try/catch, where amount is
the video's decimal price string.  BigInt(amount) throws on a fractional
price such as "5.99" and the catch turns that into verified = false; with
an integer price, verified is exactly the balance comparison.  The content
id is received but never used for the decision, and no ledger transaction
is inspected. -/
def verifyContentPayment (env : Env) (userAddress : String) (_contentId : String)
    (amount : Rat) : SynapsePaymentResult :=
  match bigIntOfPrice amount with
  | none => { success := false, verified := false }
  | some amt =>
    let userBalance := env.balanceOf userAddress
    if amt ≤ userBalance then
      { success := true, verified := true }
    else
      { success := false, verified := false }

/-- Request body of POST /api/videos/:id/purchase. -/
structure PurchaseBody where
  buyerAddress : String
  transactionHash : Option String
  paymentMethod : Option String
deriving DecidableEq, Repr

/-- The verification dispatch of POST /api/videos/:id/purchase (routes.ts):
for paymentMethod 'usdfc' with the Synapse SDK connected, use
verifyContentPayment on the video price; otherwise fall back to the
smart-contract check filecoinPayService.hasPurchasedVideo. -/
def routeVerification (env : Env) (body : PurchaseBody) (videoId : String)
    (price : Rat) : Bool :=
  if body.paymentMethod == some "usdfc" && env.synapseConnected then
    (verifyContentPayment env body.buyerAddress videoId price).verified
  else
    env.contractHasPurchased body.buyerAddress videoId

/-- Responses of POST /api/videos/:id/purchase. -/
inductive PurchaseResponse where
  | videoNotFound
  | notForSale
  | creatorNotConfigured
  | verificationFailed
  | purchased (p : Purchase)
  | quote (amount : Rat) (recipient : String)
deriving DecidableEq, Repr

/-- routes.ts, POST /api/videos/:id/purchase: look the video up (404),
reject unpriced videos (400), require the configured creator address (500);
with a transaction hash run the verification dispatch and either persist a
purchase via createPurchase or answer `Transaction verification failed`
(400) leaving the store untouched; without a hash return the payment quote. -/
def purchaseRoute (env : Env) (s : MemStorage) (videoId : String)
    (body : PurchaseBody) : PurchaseResponse × MemStorage :=
  match getVideo s videoId with
  | none => (.videoNotFound, s)
  | some video =>
    match video.price with
    | none => (.notForSale, s)
    | some pr =>
      if pr ≤ 0 then (.notForSale, s)
      else
        match env.creatorAddress with
        | none => (.creatorNotConfigured, s)
        | some creator =>
          match body.transactionHash with
          | some _ =>
            if routeVerification env body videoId pr then
              let res := createPurchase s
                { userId := some body.buyerAddress
                  videoId := some videoId
                  amount := pr
                  transactionHash := body.transactionHash }
              (.purchased res.1, res.2)
            else (.verificationFailed, s)
          | none => (.quote pr creator, s)

/-- routes.ts, legacy POST /api/purchases: the validated body goes straight
to MemStorage.createPurchase; no payment-verification service is consulted
(the handler takes no ledger environment at all). -/
def legacyPurchaseRoute (s : MemStorage) (ip : InsertPurchase) :
    Purchase × MemStorage :=
  createPurchase s ip

/-- routes.ts, GET /api/users/:userId/purchases/:videoId: reports
`hasPurchased: !!purchase`. -/
def hasPurchasedQuery (s : MemStorage) (userId videoId : String) : Bool :=
  (getPurchase s userId videoId).isSome

/-- A parsed Range request header: `bytes=a-` gives endPos none, `bytes=a-e`
gives endPos (some e). -/
structure RangeHeader where
  start : Nat
  endPos : Option Nat
deriving DecidableEq, Repr

/-- JavaScript Buffer.slice(a, b): the bytes from index a up to b exclusive,
both bounds clamped to the data length. -/
def jsSlice (data : List Nat) (a b : Nat) : List Nat :=
  (data.take b).drop a

/-- Responses of GET /api/videos/:pieceCid/stream.  `ranged` carries the
Content-Range triple (start, end, total), the Content-Length header value as
computed by `(end - start) + 1`, and the body bytes. -/
inductive StreamResponse where
  | serviceUnavailable
  | accessTokenRequired
  | videoNotFound
  | purchaseRequired
  | contentNotFound
  | ranged (start endPos total : Nat) (contentLengthHeader : Int) (body : List Nat)
  | whole (contentLength : Nat) (body : List Nat)
deriving DecidableEq, Repr

/-- Query parameters of the streaming endpoint. -/
structure StreamQuery where
  videoId : Option String
  buyerAddress : Option String
deriving DecidableEq, Repr

/-- The retrieval-and-range tail of GET /api/videos/:pieceCid/stream
(routes.ts): fetch the bytes from the content store (404 on failure); with a
range header answer 206 with Content-Range `bytes start-end/total` where a
missing end bound defaults to contentLength - 1, Content-Length
`(end - start) + 1`, and the body `data.slice(start, end + 1)`; without a
range header answer 200 with the whole body. -/
def serveBytes (env : Env) (pieceCid : String) (range : Option RangeHeader) :
    StreamResponse :=
  match env.retrieve pieceCid with
  | none => .contentNotFound
  | some data =>
    let contentLength := data.length
    match range with
    | some r =>
      let a := r.start
      let e := r.endPos.getD (contentLength - 1)
      .ranged a e contentLength ((e : Int) - (a : Int) + 1) (jsSlice data a (e + 1))
    | none => .whole contentLength data

/-- routes.ts, GET /api/videos/:pieceCid/stream (access-controlled version):
503 when the Synapse SDK is not connected; 401 when buyerAddress or videoId
is missing; 404 when the video record is absent; for pay-per-view videos
with positive price, 403 unless a purchase is recorded for
(buyerAddress, videoId); otherwise stream via `serveBytes`. -/
def streamRoute (env : Env) (s : MemStorage) (pieceCid : String)
    (q : StreamQuery) (range : Option RangeHeader) : StreamResponse :=
  if !env.synapseConnected then .serviceUnavailable
  else
    match q.buyerAddress, q.videoId with
    | some buyer, some vid =>
      match getVideo s vid with
      | none => .videoNotFound
      | some video =>
        if video.pricingType == "payper" && decide (0 < priceVal video) then
          match getPurchase s buyer vid with
          | none => .purchaseRequired
          | some _ => serveBytes env pieceCid range
        else serveBytes env pieceCid range
    | _, _ => .accessTokenRequired

/-- The access decision embedded in the streaming route, viewed as the
`hasAccess(assetId, buyerId)` operation: access is denied exactly when the
video is pay-per-view with positive price and no purchase is recorded. -/
def hasAccessD (s : MemStorage) (vid buyer : String) : Bool :=
  match getVideo s vid with
  | none => false
  | some video =>
    if video.pricingType == "payper" && decide (0 < priceVal video) then
      (getPurchase s buyer vid).isSome
    else true

/-- External collaborators of PUT /api/videos/:id/file: Synapse SDK
connectivity, synapseService.uploadFile (some pieceCid on success, none on
failure), the legacy filecoinService.storeVideo (some publicURL, none when it
throws) and ObjectStorageService.normalizeObjectEntityPath. -/
structure UploadEnv where
  synapseConnected : Bool
  uploadPiece : String → Option String
  legacyStore : String → Option String
  normalize : String → String

/-- Request body of PUT /api/videos/:id/file, restricted to the fields the
handler reads for the storage decision. -/
structure FileBody where
  videoURL : Option String
  useFilecoin : Bool
  videoBuffer : Option String
deriving DecidableEq, Repr

/-- Responses of PUT /api/videos/:id/file. -/
inductive FileResponse where
  | missingURL
  | videoNotFound
  | synapseStored (objectPath : String)
  | legacyStored (objectPath : String)
  | objectStored (objectPath : String)
deriving DecidableEq, Repr

/-- routes.ts, PUT /api/videos/:id/file: 400 without a videoURL; when
useFilecoin is set and a buffer is present, try the Synapse SDK upload if
connected (on success write the FilCDN url into the video record), or the
legacy Filecoin service if not; on a Synapse upload failure or a legacy
service exception, fall through to the regular object-storage path, which
overwrites the video's videoUrl with the normalized videoURL from the
request body. -/
def fileRoute (env : UploadEnv) (s : MemStorage) (videoId : String)
    (body : FileBody) : FileResponse × MemStorage :=
  match body.videoURL with
  | none => (.missingURL, s)
  | some videoURL =>
    let fallback : FileResponse × MemStorage :=
      let objectPath := env.normalize videoURL
      match updateVideoUrl s videoId objectPath with
      | none => (.videoNotFound, s)
      | some s1 => (.objectStored objectPath, s1)
    match body.useFilecoin, body.videoBuffer with
    | true, some buf =>
      if env.synapseConnected then
        match env.uploadPiece buf with
        | some pieceCid =>
          let filcdnUrl := "/api/videos/" ++ pieceCid ++ "/stream"
          match updateVideoUrl s videoId filcdnUrl with
          | none => (.videoNotFound, s)
          | some s1 => (.synapseStored filcdnUrl, s1)
        | none => fallback
      else
        match env.legacyStore buf with
        | some publicURL =>
          match updateVideoUrl s videoId publicURL with
          | none => (.videoNotFound, s)
          | some s1 => (.legacyStored publicURL, s1)
        | none => fallback
    | _, _ => fallback

/-- The key of the StreamBoxPayment purchases mapping (filecoinPay.ts,
Solidity source): `keccak256(abi.encodePacked(buyer, videoId,
block.timestamp))`.  The packed encoding of the three fields is injective
and keccak256 is modelled as injective, so the key is denoted by the triple
itself. -/
structure PayKey where
  buyer : String
  videoId : String
  timestamp : Nat
deriving DecidableEq, Repr

/-- A Purchase struct of the StreamBoxPayment contract. -/
structure SolPurchase where
  buyer : String
  creator : String
  videoId : String
  amount : Nat
  timestamp : Nat
  completed : Bool
deriving DecidableEq, Repr

/-- Lookup in a Solidity mapping modelled as an association list: the most
recent binding wins; a missing key reads as the type's default value, which
callers realize with getD. -/
def mapLookup {α β : Type} [BEq α] (l : List (α × β)) (k : α) : Option β :=
  (l.find? fun kv => kv.1 == k).map fun kv => kv.2

/-- Assignment to a Solidity mapping: the new binding shadows any older one. -/
def mapAssign {α β : Type} (l : List (α × β)) (k : α) (v : β) : List (α × β) :=
  (k, v) :: l

/-- Storage of the StreamBoxPayment contract. -/
structure PaymentContract where
  purchases : List (PayKey × SolPurchase)
  creatorEarnings : List (String × Nat)
  videoCreators : List (String × String)
  videoPrices : List (String × Nat)
deriving DecidableEq, Repr

/-- StreamBoxPayment.listVideo: record the caller as creator and store the
price; requires a nonempty id and a positive price. -/
def listVideo (c : PaymentContract) (sender videoId : String) (price : Nat) :
    Option PaymentContract :=
  if videoId.length = 0 || price = 0 then none
  else
    some { c with
      videoCreators := mapAssign c.videoCreators videoId sender
      videoPrices := mapAssign c.videoPrices videoId price }

/-- StreamBoxPayment.purchaseVideo: after the require checks, store a
Purchase under the key hashed from (msg.sender, videoId, block.timestamp),
credit the creator with 95% of the price and mark the purchase completed.
The external value transfers are outside the storage model; `none` denotes a
reverted call. -/
def purchaseVideo (c : PaymentContract) (sender videoId : String)
    (msgValue blockTimestamp : Nat) : Option PaymentContract :=
  if videoId.length = 0 then none
  else
    match mapLookup c.videoCreators videoId with
    | none => none
    | some creator =>
      let price := (mapLookup c.videoPrices videoId).getD 0
      if price = 0 then none
      else if msgValue < price then none
      else
        let key : PayKey := { buyer := sender, videoId := videoId, timestamp := blockTimestamp }
        let creatorAmount := price * 95 / 100
        some { c with
          purchases := mapAssign c.purchases key
            { buyer := sender, creator := creator, videoId := videoId
              amount := price, timestamp := blockTimestamp, completed := true }
          creatorEarnings := mapAssign c.creatorEarnings creator
            ((mapLookup c.creatorEarnings creator).getD 0 + creatorAmount) }

/-- StreamBoxPayment.hasPurchased: recomputes the key hash from the buyer,
the video id and the CURRENT block timestamp, and reads that slot's
completed flag (false for a missing key, the mapping default). -/
def hasPurchased (c : PaymentContract) (buyer videoId : String)
    (blockTimestamp : Nat) : Bool :=
  ((mapLookup c.purchases
      { buyer := buyer, videoId := videoId, timestamp := blockTimestamp }).map
    fun p => p.completed).getD false

/-- filecoinPay.ts, FilecoinPayService.hasPurchasedVideo: forwards to the
contract's hasPurchased when the contract is available, and returns false
when it is not or the call fails. -/
def hasPurchasedVideo (contractDeployed : Bool) (c : PaymentContract)
    (buyer videoId : String) (blockTimestamp : Nat) : Bool :=
  if contractDeployed then hasPurchased c buyer videoId blockTimestamp
  else false

/-- The spec's verification condition, written from the spec's words for
comparison with the code path: the transaction identified by the reference
is final and confirmed, its destination equals the platform's configured
recipient address, and its transferred amount is at least the asset's
price. -/
def specLedgerVerificationOk (env : Env) (transactionRef recipient : String)
    (price : Rat) : Prop :=
  ∃ t, env.lookupTransaction transactionRef = some t ∧ t.confirmed = true ∧
    t.toAddr = recipient ∧ price ≤ t.amount

/-! Concrete fixtures used by the closed scenarios below. -/

/-- A pay-per-view video priced at 10. -/
def vidPaid : Video :=
  { id := "v1", videoUrl := "old-url", price := some 10, pricingType := "payper",
    views := 0, creatorId := some "user1" }

/-- A free video. -/
def vidFree : Video :=
  { id := "vf", videoUrl := "free-url", price := some 0, pricingType := "free",
    views := 0, creatorId := some "user1" }

/-- A purchase already recorded for (buyer1, v1). -/
def purchase0 : Purchase :=
  { id := "p0", userId := some "buyer1", videoId := some "v1", amount := 10,
    transactionHash := some "tx0" }

/-- A confirmation body carrying a transaction reference with the usdfc
payment method. -/
def bodyUsdfc : PurchaseBody :=
  { buyerAddress := "buyer1", transactionHash := some "tx1",
    paymentMethod := some "usdfc" }

/-- An environment in which buyer1's USDFC balance is 10, the ledger holds a
confirmed transfer of only 5 to the creator for reference tx1, and the
platform recipient address is configured. -/
def envBalanceTen : Env :=
  { synapseConnected := true
    balanceOf := fun _ => 10
    contractHasPurchased := fun _ _ => false
    creatorAddress := some "0xCREATOR"
    retrieve := fun _ => none
    lookupTransaction := fun h =>
      if h == "tx1" then some { toAddr := "0xCREATOR", amount := 5, confirmed := true }
      else none }

/-- Store holding the priced video and an already-recorded purchase for
(buyer1, v1). -/
def storeWithPurchase : MemStorage :=
  { videos := [vidPaid], subscriptions := [], purchases := [purchase0], nextId := 0 }

/-- Store holding the priced video and no purchases. -/
def storeNoPurchase : MemStorage :=
  { videos := [vidPaid], subscriptions := [], purchases := [], nextId := 0 }

/-! C1: uniqueness of the (buyer, asset) purchase record. -/

/-- C1 counterexample: with a Purchase already recorded for (buyer1, v1), a
further successful confirmation via POST /api/videos/:id/purchase inserts a
second record instead of returning the existing one unchanged: the
purchases collection grows to two records and the response carries a fresh
record, not purchase0. -/
theorem confirmPurchase_duplicates :
    getPurchase storeWithPurchase "buyer1" "v1" = some purchase0 ∧
    (purchaseRoute envBalanceTen storeWithPurchase "v1" bodyUsdfc).2.purchases.length = 2 ∧
    (purchaseRoute envBalanceTen storeWithPurchase "v1" bodyUsdfc).1
      = .purchased { id := "uuid-0", userId := some "buyer1", videoId := some "v1",
                     amount := 10, transactionHash := some "tx1" } := by
  decide

/-- C1 amended: confirmPurchase is not idempotent.  Whenever the video
exists with positive price, the creator address is configured, a transaction
reference is supplied and verification passes, the route appends one fresh
Purchase record — even when a Purchase for (buyer, video) is already
recorded — so N successful confirmations store N records. -/
theorem confirmPurchase_always_inserts
    (env : Env) (s : MemStorage) (videoId : String) (body : PurchaseBody)
    (video : Video) (pr : Rat) (p0 : Purchase) (tx : String)
    (hv : getVideo s videoId = some video) (hp : video.price = some pr)
    (hpr : 0 < pr) (hca : env.creatorAddress.isSome)
    (ht : body.transactionHash = some tx)
    (hex : getPurchase s body.buyerAddress videoId = some p0)
    (hver : routeVerification env body videoId pr = true) :
    (purchaseRoute env s videoId body).2.purchases
      = s.purchases ++ [{ id := freshId s.nextId, userId := some body.buyerAddress,
                          videoId := some videoId, amount := pr,
                          transactionHash := body.transactionHash }] ∧
    (purchaseRoute env s videoId body).2.purchases.length
      = s.purchases.length + 1 := by
  obtain ⟨ca, hca2⟩ := Option.isSome_iff_exists.mp hca
  constructor <;> simp [purchaseRoute, hv, hp, hpr.not_le, hca2, ht, hver, createPurchase]

/-- C1 amended witness: the concrete duplicate-insertion scenario. -/
theorem confirmPurchase_always_inserts_witness :
    (purchaseRoute envBalanceTen storeWithPurchase "v1" bodyUsdfc).2.purchases
      = storeWithPurchase.purchases ++
        [{ id := freshId storeWithPurchase.nextId, userId := some bodyUsdfc.buyerAddress,
           videoId := some "v1", amount := 10,
           transactionHash := bodyUsdfc.transactionHash }] ∧
    (purchaseRoute envBalanceTen storeWithPurchase "v1" bodyUsdfc).2.purchases.length
      = storeWithPurchase.purchases.length + 1 :=
  confirmPurchase_always_inserts envBalanceTen storeWithPurchase "v1" bodyUsdfc
    vidPaid 10 purchase0 "tx1" (by decide) (by decide) (by decide) (by decide)
    (by decide) (by decide) (by decide)

/-! C2: what payment verification actually checks. -/

/-- C2 counterexample: for reference tx1 the ledger holds a confirmed
transfer of only 5 to the configured recipient, strictly less than the
price 10, so the spec's verification condition fails; yet the route
verifies and records the purchase, because at the integer price 10 the
BigInt conversion succeeds and verifyContentPayment only compares buyer1's
balance (10) against the price, never inspecting the transaction. -/
theorem underpaid_transfer_still_purchases :
    ¬ specLedgerVerificationOk envBalanceTen "tx1" "0xCREATOR" 10 ∧
    (purchaseRoute envBalanceTen storeNoPurchase "v1" bodyUsdfc).1
      = .purchased { id := "uuid-0", userId := some "buyer1", videoId := some "v1",
                     amount := 10, transactionHash := some "tx1" } := by
  constructor
  · rintro ⟨t, ht, -, -, hamt⟩
    have ht2 : some ({ toAddr := "0xCREATOR", amount := 5, confirmed := true } :
        LedgerTransfer) = some t := ht
    rw [← Option.some.inj ht2] at hamt
    exact absurd hamt (by decide)
  · decide

/-- C2 amended: on the usdfc path with the SDK connected, verification
never inspects the referenced ledger transfer — it is independent of the
transaction lookup, so neither the transfer's destination nor its
transferred amount is ever examined.  It succeeds exactly when the price
string is an integer numeral (BigInt does not throw) AND the buyer's USDFC
balance is at least that price; in particular a fractional price such as
"5.99" fails verification regardless of balance, and an integer price
verifies on balance alone. -/
theorem usdfc_verification_is_balance_check
    (env : Env) (body : PurchaseBody) (videoId : String) (price : Rat)
    (hm : body.paymentMethod = some "usdfc") (hc : env.synapseConnected = true) :
    routeVerification env body videoId price
      = decide (price.den = 1 ∧ price.num ≤ env.balanceOf body.buyerAddress) ∧
    ∀ f, routeVerification { env with lookupTransaction := f } body videoId price
      = routeVerification env body videoId price := by
  constructor
  · by_cases hden : price.den = 1
    · by_cases hbal : price.num ≤ env.balanceOf body.buyerAddress <;>
        simp [routeVerification, verifyContentPayment, bigIntOfPrice, hm, hc, hden, hbal]
    · simp [routeVerification, verifyContentPayment, bigIntOfPrice, hm, hc, hden]
  · intro f
    rfl

/-- The rational denoted by the seed price string "5.99": denominator 100,
so BigInt("5.99") throws in the source. -/
def price599 : Rat := ⟨599, 100, by norm_num, by norm_num⟩

/-- C2 amended witness: at the integer price 10 the usdfc path verifies by
the balance comparison alone (balance 10), while at the fractional seed
price 5.99 the BigInt conversion throws and verification fails despite the
ample balance. -/
theorem usdfc_verification_is_balance_check_witness :
    routeVerification envBalanceTen bodyUsdfc "v1" 10 = true ∧
    routeVerification envBalanceTen bodyUsdfc "v1" price599 = false := by
  constructor
  · rw [(usdfc_verification_is_balance_check envBalanceTen bodyUsdfc "v1" 10 rfl rfl).1]
    decide
  · rw [(usdfc_verification_is_balance_check envBalanceTen bodyUsdfc "v1" price599 rfl rfl).1]
    decide

/-! C3: unpaid pay-per-view content is denied before any retrieval. -/

/-- C3: for a pay-per-view video with positive price and no recorded
purchase for the buyer, the access decision is false and the streaming
route answers 403 Purchase required whatever the content store would
return — the retrieval oracle is universally quantified, so no bytes are
fetched on the denial path. -/
theorem no_pay_no_access
    (env : Env) (s : MemStorage) (pieceCid vid buyer : String) (video : Video)
    (pr : Rat) (range : Option RangeHeader)
    (hconn : env.synapseConnected = true)
    (hv : getVideo s vid = some video)
    (hm : video.pricingType = "payper")
    (hp : video.price = some pr) (hpr : 0 < pr)
    (hnop : getPurchase s buyer vid = none) :
    hasAccessD s vid buyer = false ∧
    ∀ f, streamRoute { env with retrieve := f } s pieceCid
        { videoId := some vid, buyerAddress := some buyer } range
      = .purchaseRequired := by
  have hcond : (video.pricingType == "payper" && decide (0 < priceVal video)) = true := by
    simp [hm, priceVal, hp, hpr]
  constructor
  · simp [hasAccessD, hv, hcond, hnop]
  · intro f
    simp [streamRoute, hconn, hv, hcond, hnop]

/-- C3 witness: buyer2 has no purchase for the priced video v1 and is
denied without retrieval. -/
theorem no_pay_no_access_witness :
    hasAccessD storeNoPurchase "v1" "buyer2" = false ∧
    ∀ f, streamRoute { envBalanceTen with retrieve := f } storeNoPurchase "cid1"
        { videoId := some "v1", buyerAddress := some "buyer2" } none
      = .purchaseRequired :=
  no_pay_no_access envBalanceTen storeNoPurchase "cid1" "v1" "buyer2" vidPaid 10 none
    rfl (by decide) rfl (by decide) (by decide) (by decide)

/-! C4: the contract's purchase lookup is keyed by the current timestamp. -/

/-- Looking a key up right after assigning it yields the assigned value. -/
theorem mapLookup_assign_self {α β : Type} [BEq α] [LawfulBEq α]
    (l : List (α × β)) (k : α) (v : β) :
    mapLookup (mapAssign l k v) k = some v := by
  unfold mapLookup mapAssign
  rw [List.find?_cons_of_pos]
  · rfl
  · simp

/-- Assignment under one key leaves lookups under a different key
unchanged. -/
theorem mapLookup_assign_ne {α β : Type} [BEq α] [LawfulBEq α]
    (l : List (α × β)) (k k' : α) (v : β) (h : k' ≠ k) :
    mapLookup (mapAssign l k v) k' = mapLookup l k' := by
  unfold mapLookup mapAssign
  rw [List.find?_cons_of_neg]
  simp only [beq_iff_eq]
  exact fun hh => h hh.symm

/-- C4: StreamBoxPayment.hasPurchased recomputes the purchase key from the
current block timestamp, so after a successful purchaseVideo at time t the
stored record is found at t but missed at every other query time t2: the
contract's hasPurchased and the server's hasPurchasedVideo wrapper both
report false even though the purchase is stored and completed. -/
theorem hasPurchased_misses_later_timestamp
    (c c2 : PaymentContract) (sender videoId : String)
    (msgValue t t2 : Nat) (deployed : Bool)
    (hpv : purchaseVideo c sender videoId msgValue t = some c2)
    (hne : t2 ≠ t)
    (hprior : mapLookup c.purchases
        { buyer := sender, videoId := videoId, timestamp := t2 } = none) :
    hasPurchased c2 sender videoId t = true ∧
    hasPurchased c2 sender videoId t2 = false ∧
    hasPurchasedVideo deployed c2 sender videoId t2 = false := by
  have hkne : ({ buyer := sender, videoId := videoId, timestamp := t2 } : PayKey)
      ≠ { buyer := sender, videoId := videoId, timestamp := t } := by
    intro hk
    exact hne (congrArg PayKey.timestamp hk)
  unfold purchaseVideo at hpv
  by_cases h0 : videoId.length = 0
  · simp [h0] at hpv
  rw [if_neg h0] at hpv
  cases hcr : mapLookup c.videoCreators videoId with
  | none => rw [hcr] at hpv; cases hpv
  | some creator =>
    rw [hcr] at hpv
    dsimp only at hpv
    by_cases hpz : (mapLookup c.videoPrices videoId).getD 0 = 0
    · simp [hpz] at hpv
    rw [if_neg hpz] at hpv
    by_cases hval : msgValue < (mapLookup c.videoPrices videoId).getD 0
    · simp [hval] at hpv
    rw [if_neg hval] at hpv
    have hc2 := (Option.some.inj hpv).symm
    subst hc2
    refine ⟨?_, ?_, ?_⟩
    · simp [hasPurchased, mapLookup_assign_self]
    · simp [hasPurchased, mapLookup_assign_ne _ _ _ _ hkne, hprior]
    · cases deployed <;>
        simp [hasPurchasedVideo, hasPurchased, mapLookup_assign_ne _ _ _ _ hkne, hprior]

/-- Contract state with video vid1 listed at price 100 by creator 0xCR. -/
def contractListed : PaymentContract :=
  { purchases := [], creatorEarnings := [],
    videoCreators := [("vid1", "0xCR")], videoPrices := [("vid1", 100)] }

/-- Contract state after 0xBUYER purchases vid1 at block timestamp 1000. -/
def contractAfterBuy : PaymentContract :=
  { purchases := [({ buyer := "0xBUYER", videoId := "vid1", timestamp := 1000 },
                   { buyer := "0xBUYER", creator := "0xCR", videoId := "vid1",
                     amount := 100, timestamp := 1000, completed := true })]
    creatorEarnings := [("0xCR", 95)]
    videoCreators := [("vid1", "0xCR")], videoPrices := [("vid1", 100)] }

/-- C4 witness: the concrete purchase at timestamp 1000 is visible to a
query at 1000 but invisible to the same query one second later. -/
theorem hasPurchased_misses_later_timestamp_witness :
    hasPurchased contractAfterBuy "0xBUYER" "vid1" 1000 = true ∧
    hasPurchased contractAfterBuy "0xBUYER" "vid1" 1001 = false ∧
    hasPurchasedVideo true contractAfterBuy "0xBUYER" "vid1" 1001 = false :=
  hasPurchased_misses_later_timestamp contractListed contractAfterBuy
    "0xBUYER" "vid1" 100 1000 1001 true (by decide) (by decide) (by decide)

/-! C5: a failed verification leaves the purchases collection unchanged. -/

/-- C5: when the video exists with positive price, the creator address is
configured and a transaction reference is supplied but verification fails,
the purchase route answers 400 Transaction verification failed and returns
the store exactly as it received it — no Purchase is written. -/
theorem verification_failure_writes_nothing
    (env : Env) (s : MemStorage) (videoId : String) (body : PurchaseBody)
    (video : Video) (pr : Rat) (tx : String)
    (hv : getVideo s videoId = some video) (hp : video.price = some pr)
    (hpr : 0 < pr) (hca : env.creatorAddress.isSome)
    (ht : body.transactionHash = some tx)
    (hfail : routeVerification env body videoId pr = false) :
    purchaseRoute env s videoId body = (.verificationFailed, s) := by
  obtain ⟨ca, hca2⟩ := Option.isSome_iff_exists.mp hca
  simp [purchaseRoute, hv, hp, hpr.not_le, hca2, ht, hfail]

/-- Environment in which buyer1's USDFC balance is only 3. -/
def envBalanceThree : Env :=
  { envBalanceTen with balanceOf := fun _ => 3 }

/-- C5 witness: balance 3 is below price 10, verification fails, and the
store comes back untouched. -/
theorem verification_failure_writes_nothing_witness :
    purchaseRoute envBalanceThree storeNoPurchase "v1" bodyUsdfc
      = (.verificationFailed, storeNoPurchase) :=
  verification_failure_writes_nothing envBalanceThree storeNoPurchase "v1" bodyUsdfc
    vidPaid 10 "tx1" (by decide) (by decide) (by decide) (by decide) (by decide)
    (by decide)

/-! C6: what happens to the asset when the content-store submission fails. -/

/-- Upload environment whose Synapse SDK is connected but whose upload
always fails; normalization prepends /objects/. -/
def uploadEnvFailing : UploadEnv :=
  { synapseConnected := true
    uploadPiece := fun _ => none
    legacyStore := fun _ => none
    normalize := fun u => "/objects/" ++ u }

/-- Store holding only the priced video (videoUrl still its original
value "old-url"). -/
def storeVideoOnly : MemStorage :=
  { videos := [vidPaid], subscriptions := [], purchases := [], nextId := 0 }

/-- C6 counterexample: when the Synapse upload fails, PUT
/api/videos/:id/file does not leave the asset untouched and does not fail:
it falls back to regular object storage, overwrites the video's locator
with the normalized videoURL from the request body, and returns the
success response carrying that path. -/
theorem upload_failure_overwrites :
    ((fileRoute uploadEnvFailing storeVideoOnly "v1"
        { videoURL := some "raw.mp4", useFilecoin := true,
          videoBuffer := some "BUF" }).2.videos.map fun v => v.videoUrl)
      = ["/objects/raw.mp4"] ∧
    (fileRoute uploadEnvFailing storeVideoOnly "v1"
        { videoURL := some "raw.mp4", useFilecoin := true,
          videoBuffer := some "BUF" }).1
      = .objectStored "/objects/raw.mp4" ∧
    "/objects/raw.mp4" ≠ "old-url" := by
  decide

/-- C6 amended: when the Synapse SDK is connected, a buffer is supplied and
the content-store submission fails, the handler falls back to the
object-storage path: the video's content locator is overwritten with the
normalized videoURL from the request body and the call succeeds with that
object path; no StorageUploadFailed error is surfaced and the previous
locator is not retained. -/
theorem upload_failure_falls_back
    (env : UploadEnv) (s : MemStorage) (videoId rawURL buf : String)
    (video : Video)
    (hconn : env.synapseConnected = true)
    (hfail : env.uploadPiece buf = none)
    (hv : getVideo s videoId = some video) :
    fileRoute env s videoId
        { videoURL := some rawURL, useFilecoin := true, videoBuffer := some buf }
      = (.objectStored (env.normalize rawURL),
         { s with videos := s.videos.map fun v =>
             if v.id == videoId then { v with videoUrl := env.normalize rawURL }
             else v }) := by
  simp [fileRoute, hconn, hfail, updateVideoUrl, hv]

/-- C6 amended witness: the concrete fallback overwrite. -/
theorem upload_failure_falls_back_witness :
    fileRoute uploadEnvFailing storeVideoOnly "v1"
        { videoURL := some "raw.mp4", useFilecoin := true, videoBuffer := some "BUF" }
      = (.objectStored (uploadEnvFailing.normalize "raw.mp4"),
         { storeVideoOnly with videos := storeVideoOnly.videos.map fun v =>
             if v.id == "v1" then { v with videoUrl := uploadEnvFailing.normalize "raw.mp4" }
             else v }) :=
  upload_failure_falls_back uploadEnvFailing storeVideoOnly "v1" "raw.mp4" "BUF"
    vidPaid rfl rfl (by decide)

/-! C7: byte-range semantics of the streaming endpoint. -/

/-- Environment serving five bytes for cid1, with a store holding the free
video vf. -/
def envFiveBytes : Env :=
  { synapseConnected := true
    balanceOf := fun _ => 0
    contractHasPurchased := fun _ _ => false
    creatorAddress := some "0xCREATOR"
    retrieve := fun cid => if cid == "cid1" then some [10, 11, 12, 13, 14] else none
    lookupTransaction := fun _ => none }

/-- Store holding only the free video vf. -/
def storeFreeVideo : MemStorage :=
  { videos := [vidFree], subscriptions := [], purchases := [], nextId := 0 }

/-- C7 counterexample: on content of length 5, Range bytes=0-9 is NOT
clamped: the response is 206 with Content-Range bytes 0-9/5 and
Content-Length 10 even though only the 5 existing bytes are in the body —
the end bound 9 exceeds L-1 = 4 and the advertised length differs from the
body length. -/
theorem range_not_clamped :
    streamRoute envFiveBytes storeFreeVideo "cid1"
        { videoId := some "vf", buyerAddress := some "b" }
        (some { start := 0, endPos := some 9 })
      = .ranged 0 9 5 10 [10, 11, 12, 13, 14] ∧
    ¬ (9 ≤ 5 - 1) ∧ (10 : Int) ≠ 5 := by
  decide

/-- C7 amended: for a stored asset of byte length L, a range request whose
bounds lie inside the content (start ≤ end < L) returns exactly the
requested span — end + 1 - start bytes — with status 206 and Content-Range
bytes start-end/L, and a request with no range header returns all L bytes
with status 200; but an end bound past L-1 is not clamped: the body is
truncated by slice while the Content-Range and Content-Length headers carry
the raw requested end. -/
theorem range_semantics
    (env : Env) (s : MemStorage) (pieceCid vid buyer : String) (video : Video)
    (data : List Nat)
    (hconn : env.synapseConnected = true)
    (hv : getVideo s vid = some video) (hfree : video.pricingType = "free")
    (hr : env.retrieve pieceCid = some data) :
    (∀ a e, a ≤ e → e < data.length →
      streamRoute env s pieceCid { videoId := some vid, buyerAddress := some buyer }
          (some { start := a, endPos := some e })
        = .ranged a e data.length ((e : Int) - (a : Int) + 1) (jsSlice data a (e + 1)) ∧
      (jsSlice data a (e + 1)).length = e + 1 - a) ∧
    (∀ a e, data.length ≤ e →
      streamRoute env s pieceCid { videoId := some vid, buyerAddress := some buyer }
          (some { start := a, endPos := some e })
        = .ranged a e data.length ((e : Int) - (a : Int) + 1) (jsSlice data a (e + 1)) ∧
      (jsSlice data a (e + 1)).length = data.length - a) ∧
    streamRoute env s pieceCid { videoId := some vid, buyerAddress := some buyer } none
      = .whole data.length data := by
  have hcond : (video.pricingType == "payper" && decide (0 < priceVal video)) = false := by
    simp [hfree]
  refine ⟨?_, ?_, ?_⟩
  · intro a e _ hlt
    constructor
    · simp [streamRoute, hconn, hv, hcond, serveBytes, hr]
    · have h1 : (data.take (e + 1)).length = e + 1 := by
        rw [List.length_take]
        omega
      rw [jsSlice, List.length_drop, h1]
  · intro a e hge
    constructor
    · simp [streamRoute, hconn, hv, hcond, serveBytes, hr]
    · have h1 : (data.take (e + 1)).length = data.length := by
        rw [List.length_take]
        omega
      rw [jsSlice, List.length_drop, h1]
  · simp [streamRoute, hconn, hv, hcond, serveBytes, hr]

/-- C7 amended witness: on the five-byte content, Range bytes=1-3 yields
exactly 3 bytes with Content-Range bytes 1-3/5, Range bytes=0-9 yields the
5 existing bytes under unclamped headers, and no range yields all 5 bytes. -/
theorem range_semantics_witness :
    ((1 : Nat) ≤ 3 ∧ (3 : Nat) < 5) ∧
    (streamRoute envFiveBytes storeFreeVideo "cid1"
        { videoId := some "vf", buyerAddress := some "b" }
        (some { start := 1, endPos := some 3 })
      = .ranged 1 3 5 3 (jsSlice [10, 11, 12, 13, 14] 1 4) ∧
    streamRoute envFiveBytes storeFreeVideo "cid1"
        { videoId := some "vf", buyerAddress := some "b" } none
      = .whole 5 [10, 11, 12, 13, 14]) := by
  have h := range_semantics envFiveBytes storeFreeVideo "cid1" "vf" "b" vidFree
    [10, 11, 12, 13, 14] rfl (by decide) rfl rfl
  exact ⟨by decide, (h.1 1 3 (by decide) (by decide)).1, h.2.2⟩

/-! C8: free content is open to every buyer. -/

/-- C8: for a video with mode free, the access decision is true for every
buyer id — including one recorded nowhere in the store — and the streaming
route serves the full body without consulting the purchases collection. -/
theorem free_always_access
    (env : Env) (s : MemStorage) (pieceCid vid buyer : String) (video : Video)
    (data : List Nat)
    (hconn : env.synapseConnected = true)
    (hv : getVideo s vid = some video) (hfree : video.pricingType = "free")
    (hr : env.retrieve pieceCid = some data) :
    hasAccessD s vid buyer = true ∧
    streamRoute env s pieceCid { videoId := some vid, buyerAddress := some buyer } none
      = .whole data.length data := by
  have hcond : (video.pricingType == "payper" && decide (0 < priceVal video)) = false := by
    simp [hfree]
  constructor
  · simp [hasAccessD, hv, hcond]
  · simp [streamRoute, hconn, hv, hcond, serveBytes, hr]

/-- C8 witness: a buyer id that appears nowhere in the store gets access to
the free video and receives the full body. -/
theorem free_always_access_witness :
    hasAccessD storeFreeVideo "vf" "never-seen-buyer" = true ∧
    streamRoute envFiveBytes storeFreeVideo "cid1"
        { videoId := some "vf", buyerAddress := some "never-seen-buyer" } none
      = .whole 5 [10, 11, 12, 13, 14] := by
  have h := free_always_access envFiveBytes storeFreeVideo "cid1" "vf"
    "never-seen-buyer" vidFree [10, 11, 12, 13, 14] rfl (by decide) rfl rfl
  exact ⟨h.1, h.2⟩

/-! C9: cancelling a subscription deactivates it in place. -/

/-- C9: for an existing active subscription, cancelSubscription keeps the
subscriptions collection the same size — nothing is deleted — and the
record is still present under its id with isActive cleared and its
subscriber id, creator id and creation timestamp unchanged. -/
theorem cancel_subscription_deactivates
    (s : MemStorage) (userId creatorId : String) (sub : Subscription)
    (h : getSubscription s userId creatorId = some sub) :
    (cancelSubscription s userId creatorId).subscriptions.length
      = s.subscriptions.length ∧
    ∃ r ∈ (cancelSubscription s userId creatorId).subscriptions,
      r.id = sub.id ∧ r.isActive = false ∧ r.userId = sub.userId ∧
      r.creatorId = sub.creatorId ∧ r.createdAt = sub.createdAt := by
  have hmem : sub ∈ s.subscriptions := by
    have hf : s.subscriptions.find? (fun x =>
        x.userId == some userId && x.creatorId == some creatorId && x.isActive)
        = some sub := h
    exact List.mem_of_find?_eq_some hf
  constructor
  · simp [cancelSubscription, h]
  · refine ⟨{ sub with isActive := false }, ?_, rfl, rfl, rfl, rfl, rfl⟩
    unfold cancelSubscription
    rw [h]
    have hself := List.mem_map_of_mem
      (f := fun x => if x.id == sub.id then { sub with isActive := false } else x) hmem
    simpa using hself

/-- An active subscription of subber to user1, recorded at time 42. -/
def subActive : Subscription :=
  { id := "sub1", userId := some "subber", creatorId := some "user1",
    isActive := true, createdAt := 42 }

/-- Store holding the single active subscription subActive. -/
def storeWithSub : MemStorage :=
  { videos := [], subscriptions := [subActive], purchases := [], nextId := 0 }

/-- C9 witness: cancelling the concrete subscription keeps the record and
clears only its active flag. -/
theorem cancel_subscription_deactivates_witness :
    (cancelSubscription storeWithSub "subber" "user1").subscriptions.length
      = storeWithSub.subscriptions.length ∧
    ∃ r ∈ (cancelSubscription storeWithSub "subber" "user1").subscriptions,
      r.id = subActive.id ∧ r.isActive = false ∧ r.userId = subActive.userId ∧
      r.creatorId = subActive.creatorId ∧ r.createdAt = subActive.createdAt :=
  cancel_subscription_deactivates storeWithSub "subber" "user1" subActive (by decide)

/-! C10: the legacy purchase endpoint records entitlements unverified. -/

/-- C10: for every store and every well-formed purchase body, the legacy
POST /api/purchases handler — whose definition takes no ledger or contract
environment, so no payment verification can occur — appends one Purchase
record, and the subsequent GET /api/users/:userId/purchases/:videoId query
then reports the buyer as entitled to that video. -/
theorem legacy_purchase_entitles_without_verification
    (s : MemStorage) (u v : String) (amt : Rat) (tx : Option String) :
    (legacyPurchaseRoute s
        { userId := some u, videoId := some v, amount := amt,
          transactionHash := tx }).2.purchases.length
      = s.purchases.length + 1 ∧
    hasPurchasedQuery (legacyPurchaseRoute s
        { userId := some u, videoId := some v, amount := amt,
          transactionHash := tx }).2 u v = true := by
  constructor
  · simp [legacyPurchaseRoute, createPurchase]
  · unfold hasPurchasedQuery getPurchase legacyPurchaseRoute createPurchase
    refine List.find?_isSome.mpr ?_
    refine ⟨{ id := freshId s.nextId, userId := some u, videoId := some v,
              amount := amt, transactionHash := tx }, ?_, ?_⟩
    · simp
    · simp

end StreamBox
